import Mathlib

/-!
Shallow embedding of the conversation/session state machine of
`src/main.py` (a Telegram doubt-collection bot): the conversation states,
the per-user session (`context.user_data`), the authorization/blacklist
gate, the login and signup handlers, the doubt recorder, and the
dispatch performed by the `ConversationHandler` configuration.

External collaborators (Google-Sheets lookups, Drive uploads, the
admin notification) are modelled as explicit inputs: a lookup result is
`Lookup.found row / notFound / storeError`, an upload either succeeds or
raises, and appends either succeed or raise, matching the exception
branches in the source.  Handler results record the next conversation
state, the mutated session, and the observable side effects (reply text,
appended rows, upload/cleanup effects).
-/

namespace AspireBot

/-- Conversation states: `range(9)` in the source plus
`ConversationHandler.END` (modelled as `CONV_END`). -/
inductive ConvState
  | AUTH_DECISION
  | LOGIN_PHONE
  | LOGIN_PIN
  | SIGNUP_NAME
  | SIGNUP_PHONE
  | SIGNUP_CLASS
  | SIGNUP_EXAMS
  | SIGNUP_PIN
  | LOGGED_IN
  | CONV_END
  deriving DecidableEq, Repr

/-- `EXAM_OPTIONS` from the source. -/
def EXAM_OPTIONS : List String :=
  ["CBSE", "ICSE", "School Exam", "JEE", "NEET", "Other Competitive"]

/-- The per-user `context.user_data` dictionary.  Each key the handlers
use becomes an optional field; `none` models the key being absent. -/
structure Session where
  phone : Option String := none
  signup_name : Option String := none
  signup_phone : Option String := none
  signup_class : Option String := none
  selected_exams : Option (Finset String) := none
  login_data : Option (List String) := none
  deriving DecidableEq

/-- `context.user_data.clear()` — and also the fresh dictionary a new
user starts with. -/
def clearedSession : Session := {}

/-- Python truthiness of `user_data.get("phone")`: `None` and the empty
string are falsy. -/
def truthy : Option String → Bool
  | none => false
  | some s => s != ""

/-- Whitespace characters removed by Python `str.strip()`. -/
def isPySpace (c : Char) : Bool :=
  c == ' ' || c == '\t' || c == '\n' || c == '\r' || c == '\x0b' || c == '\x0c'

/-- Python `str.strip()`: drop leading and trailing whitespace. -/
def pyStrip (t : String) : String :=
  ⟨((t.data.dropWhile isPySpace).reverse.dropWhile isPySpace).reverse⟩

/-- Python `str.isdigit()` restricted to ASCII text: nonempty and every
character a decimal digit.  (Python additionally accepts some non-ASCII
digit characters; all inputs considered here are ASCII.) -/
def pyIsdigit (t : String) : Bool :=
  !(t == "") && t.data.all Char.isDigit

/-- Result of `users_sheet.find(...)` together with the exception
branches the source distinguishes: a matching row, no match
(`CellNotFound` or a `None` result), or a `GSpreadException`. -/
inductive Lookup
  | found (row : List String)
  | notFound
  | storeError
  deriving DecidableEq

/- ===================== message constants (source text) ===================== -/

def BLACKLIST_MSG : String :=
  "Oops! Your access to unlimited doubt-solving has ended. To keep getting those tricky questions answered in a snap, please top up your plan. Click on the link below to recharge:\n\n https://pages.razorpay.com/stores/st_QNHI3mHvLWmx9D"

def ALREADY_REGISTERED_MSG : String :=
  "This phone number is already registered. Please log in instead using /start."

def ASK_CLASS_MSG : String := "Thanks. Which class are you in?"

def INVALID_PIN_MSG : String := "Invalid PIN. Please enter a 4-digit number."

def SIGNUP_OK_MSG : String :=
  "ðŸŽ‰ Signup successful! Please now log in to continue."

def SAVE_ERROR_MSG : String :=
  "Sorry, there was a problem saving your details. Please try signing up again."

def PHONE_FOUND_MSG : String :=
  "Phone number found. Please enter your 4-digit PIN:"

def NOT_REGISTERED_MSG : String :=
  "This number is not registered. Please use /start to sign up.\nHelpline ðŸ“ž: 9625060017"

def STORE_ERROR_MSG : String :=
  "Sorry, there was a problem connecting to our database. Please try again in a few moments.\nHelpline ðŸ“ž: 9625060017"

def LOGIN_OK_MSG : String :=
  "âœ… Login successful! You can now send your doubts."

def ACCESS_DENIED_MSG : String :=
  "âŒ Access Denied. This phone number is registered to a different Telegram account.\nHelpline ðŸ“ž: 9625060017"

def INCORRECT_PIN_MSG : String :=
  "Incorrect PIN. Please try the PIN again, or use /cancel to start over."

/- ===================== authorization gate ===================== -/

/-- `is_user_blacklisted`: returns the boolean the coroutine returns and
the session as it stands afterwards.  The blacklist (`get_blacklist`) is
passed in as the set of blacklisted phone strings. -/
def is_user_blacklisted (s : Session) (bl : Finset String) : Bool × Session :=
  match s.phone with
  | none => (true, s)
  | some phone =>
      if phone = "" then (true, s)
      else if phone ∈ bl then (true, clearedSession)
      else (false, s)

/- ===================== /start ===================== -/

/-- Result of the `start` handler: next conversation state, session, and
whether the login/signup menu was shown. -/
structure StartResult where
  state : ConvState
  session : Session
  menuShown : Bool
  deriving DecidableEq

/-- The `start` handler: with a truthy `phone` and a clean blacklist
check it short-circuits to `LOGGED_IN`; a blacklisted phone falls
through (session already cleared by the gate) to the menu; otherwise the
login/signup menu is shown and the state is `AUTH_DECISION`. -/
def start (s : Session) (bl : Finset String) : StartResult :=
  if truthy s.phone then
    match is_user_blacklisted s bl with
    | (true, s2) => { state := .AUTH_DECISION, session := s2, menuShown := true }
    | (false, s2) => { state := .LOGGED_IN, session := s2, menuShown := false }
  else { state := .AUTH_DECISION, session := s, menuShown := true }

/- ===================== auth decision ===================== -/

/-- `auth_decision_callback`: `"login"` and `"signup"` move to the
corresponding flow; any other callback data falls off the end of the
function (Python returns `None`, so the conversation state is kept). -/
def auth_decision_callback (data : String) : Option ConvState :=
  if data = "login" then some .LOGIN_PHONE
  else if data = "signup" then some .SIGNUP_NAME
  else none

/- ===================== signup flow ===================== -/

/-- `signup_name`: stores the stripped text and moves on. -/
def signup_name (s : Session) (text : String) : ConvState × Session :=
  (.SIGNUP_PHONE, { s with signup_name := some (pyStrip text) })

/-- `signup_phone`: uniqueness check against the Users sheet.  A match
ends the conversation; `CellNotFound` is swallowed and the flow
continues; a `GSpreadException` is not caught (`none`: the exception
propagates, no reply, conversation state untouched). -/
def signup_phone (s : Session) (text : String) (lk : Lookup) :
    Option (ConvState × Session × String) :=
  let phone := pyStrip text
  match lk with
  | .found _ => some (.CONV_END, s, ALREADY_REGISTERED_MSG)
  | .notFound => some (.SIGNUP_CLASS, { s with signup_phone := some phone }, ASK_CLASS_MSG)
  | .storeError => none

/-- `signup_class`: stores the class and initialises the exam
multi-select to the empty set. -/
def signup_class (s : Session) (text : String) : ConvState × Session :=
  (.SIGNUP_EXAMS, { s with signup_class := some (pyStrip text), selected_exams := some ∅ })

/-- `query.data.split("_", 1)[1]`: everything after the first
underscore, or `none` (an `IndexError`) when there is no underscore. -/
def afterUndAux : List Char → Option (List Char)
  | [] => none
  | c :: rest => if c = '_' then some rest else afterUndAux rest

def afterUnd (d : String) : Option String :=
  (afterUndAux d.data).map fun l => ⟨l⟩

/-- Toggle one tag in the multi-select set (`remove` if present,
`add` otherwise). -/
def toggle (sel : Finset String) (a : String) : Finset String :=
  if a ∈ sel then sel.erase a else insert a sel

/-- The checkmark prefixed to a selected option label (source bytes). -/
def CHECK_MARK : String := "âœ… "

/-- The option labels of the re-rendered keyboard (the trailing Done
button is constant and omitted). -/
def renderKeyboard (sel : Finset String) : List String :=
  EXAM_OPTIONS.map fun exam => if exam ∈ sel then CHECK_MARK ++ exam else exam

structure ExamsResult where
  state : ConvState
  session : Session
  keyboard : List String
  deriving DecidableEq

/-- `signup_exams_callback`: `exam_done` moves to the PIN prompt; any
other `exam_<tag>` toggles `<tag>` and re-renders the keyboard. -/
def signup_exams_callback (s : Session) (data : String) : Option ExamsResult :=
  match afterUnd data with
  | none => none
  | some action =>
      if action = "done" then
        some { state := .SIGNUP_PIN, session := s, keyboard := [] }
      else
        let sel := s.selected_exams.getD ∅
        let sel2 := toggle sel action
        some { state := .SIGNUP_EXAMS,
               session := { s with selected_exams := some sel2 },
               keyboard := renderKeyboard sel2 }

/-- Lexicographic code-point comparison of character lists: the order
Python uses to compare the strings passed to `sorted`. -/
def charListLeb : List Char → List Char → Bool
  | [], _ => true
  | _ :: _, [] => false
  | c :: cs, d :: ds => if c < d then true else if d < c then false else charListLeb cs ds

/-- Python string comparison `a <= b` (code-point lexicographic). -/
def strle (a b : String) : Prop := charListLeb a.data b.data = true

instance : DecidableRel strle := fun a b => by unfold strle; infer_instance

theorem charListLeb_total : ∀ l1 l2, charListLeb l1 l2 = true ∨ charListLeb l2 l1 = true := by
  intro l1
  induction l1 with
  | nil => intro l2; left; rfl
  | cons c cs ih =>
      intro l2
      cases l2 with
      | nil => right; rfl
      | cons d ds =>
          rcases lt_trichotomy c d with h | h | h
          · left; simp [charListLeb, h]
          · subst h
            rcases ih ds with h2 | h2
            · left; simp [charListLeb, lt_irrefl, h2]
            · right; simp [charListLeb, lt_irrefl, h2]
          · right; simp [charListLeb, h]

theorem charListLeb_trans :
    ∀ l1 l2 l3, charListLeb l1 l2 = true → charListLeb l2 l3 = true →
      charListLeb l1 l3 = true := by
  intro l1
  induction l1 with
  | nil => intro l2 l3 _ _; rfl
  | cons c cs ih =>
      intro l2 l3 h12 h23
      cases l2 with
      | nil => simp [charListLeb] at h12
      | cons d ds =>
          cases l3 with
          | nil => simp [charListLeb] at h23
          | cons e es =>
              simp only [charListLeb] at h12 h23 ⊢
              by_cases hcd : c < d
              · simp only [hcd, if_true] at h12
                by_cases hde : d < e
                · simp [lt_trans hcd hde]
                · simp only [hde, if_false] at h23
                  by_cases hed : e < d
                  · simp [hed] at h23
                  · have hde2 : d = e := le_antisymm (not_lt.mp hed) (not_lt.mp hde)
                    subst hde2
                    simp [hcd]
              · simp only [hcd, if_false] at h12
                by_cases hdc : d < c
                · simp [hdc] at h12
                · have hcd2 : c = d := le_antisymm (not_lt.mp hdc) (not_lt.mp hcd)
                  subst hcd2
                  simp only [lt_irrefl, if_false] at h12
                  by_cases hce : c < e
                  · simp [hce]
                  · simp only [hce, if_false] at h23 ⊢
                    by_cases hec : e < c
                    · simp [hec] at h23
                    · simp only [hec, if_false] at h23 ⊢
                      exact ih ds es h12 h23

theorem charListLeb_antisymm :
    ∀ l1 l2, charListLeb l1 l2 = true → charListLeb l2 l1 = true → l1 = l2 := by
  intro l1
  induction l1 with
  | nil =>
      intro l2 _ h21
      cases l2 with
      | nil => rfl
      | cons d ds => simp [charListLeb] at h21
  | cons c cs ih =>
      intro l2 h12 h21
      cases l2 with
      | nil => simp [charListLeb] at h12
      | cons d ds =>
          simp only [charListLeb] at h12 h21
          by_cases hcd : c < d
          · simp [hcd, lt_asymm hcd] at h21
          · simp only [hcd, if_false] at h12
            by_cases hdc : d < c
            · simp [hdc] at h12
            · have hcd2 : c = d := le_antisymm (not_lt.mp hdc) (not_lt.mp hcd)
              subst hcd2
              simp only [lt_irrefl, if_false] at h12 h21
              rw [ih ds h12 h21]

instance : IsTotal String strle := ⟨fun a b => charListLeb_total a.data b.data⟩

instance : IsTrans String strle := ⟨fun a b c => charListLeb_trans a.data b.data c.data⟩

instance : IsAntisymm String strle :=
  ⟨fun a b h1 h2 => String.ext (charListLeb_antisymm a.data b.data h1 h2)⟩

/-- `sorted(list(sel))`: the elements of the set in ascending
(code-point lexicographic) order, computed by a structural insertion
sort so that concrete instances evaluate. -/
def pySorted (sel : Finset String) : List String :=
  Quot.liftOn sel.val (fun l => l.insertionSort strle) fun l1 l2 h =>
    List.eq_of_perm_of_sorted
      ((List.perm_insertionSort _ l1).trans (h.trans (List.perm_insertionSort _ l2).symm))
      (List.sorted_insertionSort _ l1) (List.sorted_insertionSort _ l2)

/-- `", ".join(sorted(list(selected_exams)))`. -/
def examsStr (sel : Finset String) : String :=
  String.intercalate ", " (pySorted sel)

/-- Result of `signup_pin`: `row` is the `new_row` list built by the
handler (`none` when PIN validation failed), `appended`/`notified`
record whether the sheet append and the WhatsApp notification happened,
and `state`/`session`/`menuShown` reflect the tail call into `start`. -/
structure SignupPinResult where
  state : ConvState
  session : Session
  row : Option (List String)
  appended : Bool
  notified : Bool
  menuShown : Bool
  reply : String
  deriving DecidableEq

/-- `signup_pin`: validates `pin.isdigit() and len(pin) == 4` on the
stripped text (re-prompting in place otherwise), builds `new_row`,
appends it, notifies the admin, clears `user_data` and tail-calls
`start`; a `GSpreadException` from the append skips the notification and
the clear and tail-calls `start` with the session intact.  `none` models
the `KeyError` raised when a transient signup field is missing. -/
def signup_pin (s : Session) (text callerId ts : String) (bl : Finset String)
    (appendOk : Bool) : Option SignupPinResult :=
  let pin := pyStrip text
  if pyIsdigit pin && pin.length == 4 then
    match s.selected_exams, s.signup_name, s.signup_phone, s.signup_class with
    | some sel, some nm, some ph, some cl =>
        let row := [ph, callerId, nm, cl, examsStr sel, pin, ts]
        if appendOk then
          let r := start clearedSession bl
          some { state := r.state, session := r.session, row := some row,
                 appended := true, notified := true, menuShown := r.menuShown,
                 reply := SIGNUP_OK_MSG }
        else
          let r := start s bl
          some { state := r.state, session := r.session, row := some row,
                 appended := false, notified := false, menuShown := r.menuShown,
                 reply := SAVE_ERROR_MSG }
    | _, _, _, _ => none
  else
    some { state := .SIGNUP_PIN, session := s, row := none, appended := false,
           notified := false, menuShown := false, reply := INVALID_PIN_MSG }

/- ===================== login flow ===================== -/

structure LoginPhoneResult where
  state : ConvState
  session : Session
  reply : String
  menuShown : Bool
  deriving DecidableEq

/-- `login_phone`: a blacklisted number ends the conversation; a found
row is snapshotted into `login_data`; `CellNotFound` tail-calls `start`;
a `GSpreadException` is caught, reported, and ends the conversation. -/
def login_phone (s : Session) (text : String) (bl : Finset String) (lk : Lookup) :
    LoginPhoneResult :=
  let phone := pyStrip text
  if phone ∈ bl then
    { state := .CONV_END, session := s, reply := BLACKLIST_MSG, menuShown := false }
  else
    match lk with
    | .found row =>
        { state := .LOGIN_PIN, session := { s with login_data := some row },
          reply := PHONE_FOUND_MSG, menuShown := false }
    | .notFound =>
        let r := start s bl
        { state := r.state, session := r.session, reply := NOT_REGISTERED_MSG,
          menuShown := r.menuShown }
    | .storeError =>
        { state := .CONV_END, session := s, reply := STORE_ERROR_MSG, menuShown := false }

structure LoginPinResult where
  state : ConvState
  session : Session
  reply : String
  deriving DecidableEq

/-- `login_pin`: compares the stripped text with `login_data[5]`; on a
match the stored Telegram id `login_data[1]` must equal the id of the caller,
in which case the session is cleared and `phone` set from
`login_data[0]`; an id mismatch ends the conversation; a PIN mismatch
re-prompts in the same state.  `none` models the `KeyError`/`IndexError`
raised when `login_data` is missing or too short. -/
def login_pin (s : Session) (text callerId : String) : Option LoginPinResult :=
  match s.login_data with
  | none => none
  | some row =>
      match row.get? 5 with
      | none => none
      | some correct_pin =>
          let pin := pyStrip text
          if pin = correct_pin then
            match row.get? 1 with
            | none => none
            | some stored_id =>
                if stored_id = callerId then
                  match row.get? 0 with
                  | none => none
                  | some phone_number =>
                      some { state := .LOGGED_IN,
                             session := { clearedSession with phone := some phone_number },
                             reply := LOGIN_OK_MSG }
                else
                  some { state := .CONV_END, session := s, reply := ACCESS_DENIED_MSG }
          else
            some { state := .LOGIN_PIN, session := s, reply := INCORRECT_PIN_MSG }

/- ===================== doubt recorder ===================== -/

/-- A doubt submission: a text message or a photo with optional caption. -/
inductive Payload
  | text (t : String)
  | photo (caption : Option String)
  deriving DecidableEq

/-- Ordered observable effects of the photo pipeline in `handle_doubt`:
download to the temp file, Drive upload, `os.unlink` of the temp file,
the acknowledgement reply, and the sheet append. -/
inductive Eff
  | download
  | upload
  | unlinkFile
  | ack
  | appendRow
  deriving DecidableEq, Repr

structure DoubtResult where
  session : Session
  doubtRow : Option (List String)
  effs : List Eff
  raised : Bool
  deriving DecidableEq

/-- `update.message.caption or "-"`: `None` and `""` are falsy. -/
def captionOrDash : Option String → String
  | none => "-"
  | some c => if c = "" then "-" else c

/-- `handle_doubt`: gate check, dead-code phone guard, fresh name lookup
(only `CellNotFound` is caught), then the text or photo pipeline.  The
temp file is created with `delete=False`; `os.unlink` sits after the
`with` block with no `finally`, so a failing upload raises out of the
block and the unlink, the acknowledgement and the append never run. -/
def handle_doubt (s : Session) (bl : Finset String) (lk : Lookup) (payload : Payload)
    (callerId ts driveId : String) (uploadOk : Bool) : DoubtResult :=
  match is_user_blacklisted s bl with
  | (true, s2) => { session := s2, doubtRow := none, effs := [], raised := false }
  | (false, _) =>
    match s.phone with
    | none => { session := s, doubtRow := none, effs := [], raised := false }
    | some phone =>
        match lk with
        | .notFound => { session := s, doubtRow := none, effs := [], raised := false }
        | .storeError => { session := s, doubtRow := none, effs := [], raised := true }
        | .found row =>
            match row.get? 2 with
            | none => { session := s, doubtRow := none, effs := [], raised := true }
            | some name =>
                let waLink := "https://wa.me/91" ++ phone
                match payload with
                | .photo caption =>
                    if uploadOk then
                      let drive_link := "https://drive.google.com/uc?id=" ++ driveId
                      { session := s,
                        doubtRow := some [ts, name, phone, callerId,
                                          captionOrDash caption, drive_link, "Pending", waLink],
                        effs := [.download, .upload, .unlinkFile, .ack, .appendRow],
                        raised := false }
                    else
                      { session := s, doubtRow := none, effs := [.download], raised := true }
                | .text t =>
                    { session := s,
                      doubtRow := some [ts, name, phone, callerId, t, "-", "Pending", waLink],
                      effs := [.ack, .appendRow], raised := false }

/- ===================== logout / cancel ===================== -/

/-- `logout`: clear the session and tail-call `start`. -/
def logout (bl : Finset String) : StartResult :=
  start clearedSession bl

/-- `cancel`: clear the session and end the conversation. -/
def cancel : ConvState × Session :=
  (.CONV_END, clearedSession)

/- ===================== event dispatch ===================== -/

/-- Inbound events as the `ConversationHandler` configuration sees them:
the three commands, a button press, a non-command text message, a photo,
and a process restart (the conversation state is not persisted across
restarts, while `user_data` is, via `PicklePersistence`). -/
inductive Event
  | startCmd
  | cancelCmd
  | logoutCmd
  | restart
  | cbQuery (data : String)
  | textMsg (t : String)
  | photoMsg (caption : Option String)

/-- One event worth of external-collaborator behaviour: the blacklist
set, the sheet lookup outcome, the Telegram id of the caller, the timestamp,
the Drive file id, and whether the sheet append / Drive upload succeed. -/
structure Env where
  bl : Finset String
  lookup : Lookup
  callerId : String
  ts : String
  driveId : String
  appendOk : Bool
  uploadOk : Bool

/-- The dispatch table of the `ConversationHandler`: entry point
`/start`, per-state handlers, fallbacks `/cancel` and `/start`.  In
`LOGGED_IN` the message handler uses `filters.TEXT | filters.PHOTO`
without `~filters.COMMAND`, and state handlers are tried before
fallbacks, so `/start` and `/cancel` there are swallowed by
`handle_doubt` as text.  A handler that raises or returns `None` leaves
the conversation state unchanged. -/
def step (st : ConvState) (s : Session) (e : Event) (env : Env) : ConvState × Session :=
  match e with
  | .restart => (.CONV_END, s)
  | .startCmd =>
      match st with
      | .LOGGED_IN =>
          (.LOGGED_IN, (handle_doubt s env.bl env.lookup (.text "/start")
            env.callerId env.ts env.driveId env.uploadOk).session)
      | _ =>
          let r := start s env.bl
          (r.state, r.session)
  | .cancelCmd =>
      match st with
      | .LOGGED_IN =>
          (.LOGGED_IN, (handle_doubt s env.bl env.lookup (.text "/cancel")
            env.callerId env.ts env.driveId env.uploadOk).session)
      | .CONV_END => (.CONV_END, s)
      | _ => cancel
  | .logoutCmd =>
      match st with
      | .LOGGED_IN =>
          let r := logout env.bl
          (r.state, r.session)
      | _ => (st, s)
  | .cbQuery d =>
      match st with
      | .AUTH_DECISION =>
          match auth_decision_callback d with
          | some st2 => (st2, s)
          | none => (.AUTH_DECISION, s)
      | .SIGNUP_EXAMS =>
          match signup_exams_callback s d with
          | some r => (r.state, r.session)
          | none => (.SIGNUP_EXAMS, s)
      | _ => (st, s)
  | .textMsg t =>
      match st with
      | .LOGIN_PHONE =>
          let r := login_phone s t env.bl env.lookup
          (r.state, r.session)
      | .LOGIN_PIN =>
          match login_pin s t env.callerId with
          | some r => (r.state, r.session)
          | none => (.LOGIN_PIN, s)
      | .SIGNUP_NAME => signup_name s t
      | .SIGNUP_PHONE =>
          match signup_phone s t env.lookup with
          | some (st2, s2, _) => (st2, s2)
          | none => (.SIGNUP_PHONE, s)
      | .SIGNUP_CLASS => signup_class s t
      | .SIGNUP_PIN =>
          match signup_pin s t env.callerId env.ts env.bl env.appendOk with
          | some r => (r.state, r.session)
          | none => (.SIGNUP_PIN, s)
      | .LOGGED_IN =>
          (.LOGGED_IN, (handle_doubt s env.bl env.lookup (.text t)
            env.callerId env.ts env.driveId env.uploadOk).session)
      | _ => (st, s)
  | .photoMsg c =>
      match st with
      | .LOGGED_IN =>
          (.LOGGED_IN, (handle_doubt s env.bl env.lookup (.photo c)
            env.callerId env.ts env.driveId env.uploadOk).session)
      | _ => (st, s)

/-- Conversation-state/session pairs reachable from a fresh user
(no conversation, empty `user_data`) through the dispatch table. -/
inductive Reachable : ConvState → Session → Prop
  | base : Reachable .CONV_END clearedSession
  | next : ∀ {st s} (e : Event) (env : Env), Reachable st s →
      Reachable (step st s e env).1 (step st s e env).2

/-- No transient signup/login key is present in `user_data`. -/
def transientsNone (s : Session) : Prop :=
  s.signup_name = none ∧ s.signup_phone = none ∧ s.signup_class = none ∧
  s.selected_exams = none ∧ s.login_data = none

/-- The inductive invariant used for the reachability proof: an
authenticated session carries no transient field and can only be in
`LOGGED_IN` or out of a conversation (`CONV_END`, e.g. right after a
restart). -/
def InvP (st : ConvState) (s : Session) : Prop :=
  truthy s.phone = true → transientsNone s ∧ (st = .LOGGED_IN ∨ st = .CONV_END)

/- ===================== concrete inputs for witnesses ===================== -/

/-- A session mid-signup, at the `SIGNUP_PIN` prompt (the happy-path
scenario of the spec: name Asha, phone 9000000001, class 10, JEE). -/
def sigSession : Session :=
  { signup_name := some "Asha", signup_phone := some "9000000001",
    signup_class := some "10", selected_exams := some {"JEE"} }

/-- A stored Users row: phone, owner Telegram id, name, class, exams,
pin, created-at. -/
def rowA : List String := ["9998887776", "A", "N", "10", "JEE", "1234", "T"]

/-- An environment with an empty blacklist and a failing lookup. -/
def env0 : Env :=
  { bl := ∅, lookup := .notFound, callerId := "A", ts := "T", driveId := "D",
    appendOk := true, uploadOk := true }

/-- The same environment with the lookup answering `rowA`. -/
def envA : Env := { env0 with lookup := .found rowA }

/- ===================== helper lemmas ===================== -/

theorem truthy_cleared : truthy clearedSession.phone = false := rfl

theorem transients_cleared : transientsNone clearedSession :=
  ⟨rfl, rfl, rfl, rfl, rfl⟩

theorem gate_cases (s : Session) (bl : Finset String) :
    is_user_blacklisted s bl = (true, s) ∨
    is_user_blacklisted s bl = (true, clearedSession) ∨
    is_user_blacklisted s bl = (false, s) := by
  unfold is_user_blacklisted
  rcases hp : s.phone with _ | p
  · exact Or.inl rfl
  · by_cases h1 : p = "" <;> by_cases h2 : p ∈ bl <;> simp [h1, h2]

theorem gate_of_truthy (s : Session) (bl : Finset String) (ht : truthy s.phone = true) :
    is_user_blacklisted s bl = (true, clearedSession) ∨
    is_user_blacklisted s bl = (false, s) := by
  unfold is_user_blacklisted
  rcases hp : s.phone with _ | p
  · simp [truthy, hp] at ht
  · have hne : ¬ p = "" := by simpa [truthy, hp] using ht
    by_cases h2 : p ∈ bl <;> simp [hne, h2]

theorem start_cases (s : Session) (bl : Finset String) :
    (truthy s.phone = false ∧ start s bl = ⟨.AUTH_DECISION, s, true⟩) ∨
    (truthy s.phone = true ∧ start s bl = ⟨.LOGGED_IN, s, false⟩) ∨
    start s bl = ⟨.AUTH_DECISION, clearedSession, true⟩ := by
  by_cases ht : truthy s.phone = true
  · rcases gate_of_truthy s bl ht with hg | hg
    · exact Or.inr (Or.inr (by simp [start, ht, hg]))
    · exact Or.inr (Or.inl ⟨ht, by simp [start, ht, hg]⟩)
  · have hf : truthy s.phone = false := by simpa using ht
    exact Or.inl ⟨hf, by simp [start, hf]⟩

theorem start_session_cases (s : Session) (bl : Finset String) :
    (start s bl).session = s ∨ (start s bl).session = clearedSession := by
  rcases start_cases s bl with ⟨_, he⟩ | ⟨_, he⟩ | he <;> rw [he]
  · exact Or.inl rfl
  · exact Or.inl rfl
  · exact Or.inr rfl

theorem start_state_cases (s : Session) (bl : Finset String) :
    (start s bl).state = .AUTH_DECISION ∨ (start s bl).state = .LOGGED_IN := by
  rcases start_cases s bl with ⟨_, he⟩ | ⟨_, he⟩ | he <;> rw [he]
  · exact Or.inl rfl
  · exact Or.inr rfl
  · exact Or.inl rfl

theorem mem_toggle (sel : Finset String) (a x : String) :
    x ∈ toggle sel a ↔ if x = a then a ∉ sel else x ∈ sel := by
  unfold toggle
  by_cases h : a ∈ sel <;> by_cases hx : x = a <;>
    simp [h, hx, Finset.mem_erase, Finset.mem_insert]

theorem toggle_toggle (sel : Finset String) (a : String) :
    toggle (toggle sel a) a = sel := by
  unfold toggle
  by_cases h : a ∈ sel
  · rw [if_pos h, if_neg (by simp [Finset.mem_erase]), Finset.insert_erase h]
  · rw [if_neg h, if_pos (Finset.mem_insert_self a sel), Finset.erase_insert h]

theorem toggle_comm (sel : Finset String) (a b : String) :
    toggle (toggle sel a) b = toggle (toggle sel b) a := by
  by_cases hab : a = b
  · rw [hab]
  · ext x
    simp only [mem_toggle]
    by_cases hxa : x = a <;> by_cases hxb : x = b <;>
      simp_all [mem_toggle]

theorem foldl_toggle_perm {l1 l2 : List String} (h : l1.Perm l2) (sel : Finset String) :
    l1.foldl toggle sel = l2.foldl toggle sel := by
  induction h generalizing sel with
  | nil => rfl
  | cons x _ ih => simpa only [List.foldl_cons] using ih (toggle sel x)
  | swap x y l => simp only [List.foldl_cons]; rw [toggle_comm]
  | trans _ _ ih1 ih2 => rw [ih1, ih2]

theorem mark_head (y : String) :
    (CHECK_MARK ++ y).data.head? = CHECK_MARK.data.head? := by
  cases y with
  | mk d => rfl

theorem mark_cancel {x y : String} (h : CHECK_MARK ++ x = CHECK_MARK ++ y) : x = y := by
  have hd : CHECK_MARK.data ++ x.data = CHECK_MARK.data ++ y.data := by
    simpa [String.data_append] using congrArg String.data h
  exact String.ext (List.append_cancel_left hd)

theorem exam_ne_mark (x : String) (hx : x ∈ EXAM_OPTIONS) (y : String) :
    x ≠ CHECK_MARK ++ y := by
  intro h
  have hh : x.data.head? = CHECK_MARK.data.head? := by
    rw [h]; exact mark_head y
  fin_cases hx <;> exact absurd hh (by decide)

theorem mark_mem_render (sel : Finset String) (e : String) (he : e ∈ EXAM_OPTIONS) :
    (CHECK_MARK ++ e) ∈ renderKeyboard sel ↔ e ∈ sel := by
  unfold renderKeyboard
  constructor
  · intro h
    rcases List.mem_map.mp h with ⟨x, hx, hfx⟩
    by_cases hxs : x ∈ sel
    · rw [if_pos hxs] at hfx
      exact mark_cancel hfx ▸ hxs
    · rw [if_neg hxs] at hfx
      exact absurd hfx (exam_ne_mark x hx e)
  · intro h
    exact List.mem_map.mpr ⟨e, he, by rw [if_pos h]⟩

/- ===================== invariant helper lemmas ===================== -/

theorem invp_phone_false {st2 : ConvState} {s2 : Session}
    (h : truthy s2.phone = false) : InvP st2 s2 := by
  intro hp
  rw [h] at hp
  exact absurd hp (by decide)

theorem phone_false_of_invp {st : ConvState} {s : Session} (h : InvP st s)
    (h1 : st ≠ .LOGGED_IN) (h2 : st ≠ .CONV_END) : truthy s.phone = false := by
  cases hb : truthy s.phone
  · rfl
  · rcases (h hb).2 with e | e
    · exact absurd e h1
    · exact absurd e h2

theorem truthy_carry {s2 s : Session} (hc : s2.phone = s.phone ∨ s2 = clearedSession)
    (h : truthy s.phone = false) : truthy s2.phone = false := by
  rcases hc with hc | hc
  · rw [hc]; exact h
  · rw [hc]; rfl

theorem invp_start (s : Session) (bl : Finset String)
    (hT : truthy s.phone = true → transientsNone s) :
    InvP (start s bl).state (start s bl).session := by
  rcases start_cases s bl with ⟨hf, he⟩ | ⟨ht, he⟩ | he <;> rw [he]
  · exact invp_phone_false hf
  · intro hp
    exact ⟨hT hp, Or.inl rfl⟩
  · exact invp_phone_false rfl

theorem handle_doubt_session (s : Session) (bl : Finset String) (lk : Lookup)
    (p : Payload) (cid ts did : String) (up : Bool) :
    (handle_doubt s bl lk p cid ts did up).session = s ∨
    (handle_doubt s bl lk p cid ts did up).session = clearedSession := by
  unfold handle_doubt
  rcases gate_cases s bl with hg | hg | hg <;> rw [hg]
  · exact Or.inl rfl
  · exact Or.inr rfl
  · left
    rcases hp : s.phone with _ | ph
    · rfl
    · cases lk with
      | notFound => rfl
      | storeError => rfl
      | found row =>
          rcases h2 : row.get? 2 with _ | nm <;> simp only [h2]
          cases p with
          | text t => rfl
          | photo c => by_cases hu : up <;> simp [hu]

theorem login_phone_phone (s : Session) (t : String) (bl : Finset String) (lk : Lookup) :
    (login_phone s t bl lk).session.phone = s.phone ∨
    (login_phone s t bl lk).session = clearedSession := by
  unfold login_phone
  by_cases hb : pyStrip t ∈ bl
  · simp [hb]
  · cases lk with
    | found row => simp [hb]
    | notFound =>
        simp only [hb, if_false]
        rcases start_session_cases s bl with hs | hs <;> rw [hs]
        · exact Or.inl rfl
        · exact Or.inr rfl
    | storeError => simp [hb]

theorem login_pin_cases (s : Session) (t cid : String) (r : LoginPinResult)
    (h : login_pin s t cid = some r) :
    (r.state = .LOGGED_IN ∧ transientsNone r.session) ∨ r.session = s := by
  unfold login_pin at h
  rcases hld : s.login_data with _ | row <;> simp only [hld] at h
  · exact Option.noConfusion h
  rcases h5 : row.get? 5 with _ | p5 <;> simp only [h5] at h
  · exact Option.noConfusion h
  by_cases hpin : pyStrip t = p5
  · rw [if_pos hpin] at h
    rcases h1 : row.get? 1 with _ | p1 <;> simp only [h1] at h
    · exact Option.noConfusion h
    by_cases hid : p1 = cid
    · rw [if_pos hid] at h
      rcases h0 : row.get? 0 with _ | p0 <;> simp only [h0] at h
      · exact Option.noConfusion h
      left
      have hr := Option.some.inj h
      rw [← hr]
      exact ⟨rfl, rfl, rfl, rfl, rfl, rfl⟩
    · rw [if_neg hid] at h
      right
      have hr := Option.some.inj h
      rw [← hr]
  · rw [if_neg hpin] at h
    right
    have hr := Option.some.inj h
    rw [← hr]

theorem signup_phone_phone (s : Session) (t : String) (lk : Lookup)
    (st2 : ConvState) (s2 : Session) (m : String)
    (h : signup_phone s t lk = some (st2, s2, m)) : s2.phone = s.phone := by
  unfold signup_phone at h
  cases lk with
  | found row =>
      have h2 := Option.some.inj h
      injection h2 with ha hrest
      injection hrest with hb hc
      rw [← hb]
  | notFound =>
      have h2 := Option.some.inj h
      injection h2 with ha hrest
      injection hrest with hb hc
      rw [← hb]
  | storeError => exact Option.noConfusion h

theorem signup_exams_phone (s : Session) (d : String) (r : ExamsResult)
    (h : signup_exams_callback s d = some r) : r.session.phone = s.phone := by
  unfold signup_exams_callback at h
  rcases ha : afterUnd d with _ | action <;> simp only [ha] at h
  · exact Option.noConfusion h
  · by_cases hd : action = "done"
    · rw [if_pos hd] at h
      have hr := Option.some.inj h
      rw [← hr]
    · rw [if_neg hd] at h
      have hr := Option.some.inj h
      rw [← hr]

theorem signup_pin_phone (s : Session) (t cid ts : String) (bl : Finset String)
    (ok : Bool) (r : SignupPinResult) (h : signup_pin s t cid ts bl ok = some r) :
    r.session.phone = s.phone ∨ r.session = clearedSession := by
  unfold signup_pin at h
  by_cases hv : (pyIsdigit (pyStrip t) && (pyStrip t).length == 4) = true
  · rw [if_pos hv] at h
    rcases hse : s.selected_exams with _ | sel <;> simp only [hse] at h
    · exact Option.noConfusion h
    rcases hsn : s.signup_name with _ | nm <;> simp only [hsn] at h
    · exact Option.noConfusion h
    rcases hsp : s.signup_phone with _ | ph <;> simp only [hsp] at h
    · exact Option.noConfusion h
    rcases hsc : s.signup_class with _ | cl <;> simp only [hsc] at h
    · exact Option.noConfusion h
    by_cases hok : ok = true
    · rw [if_pos hok] at h
      have hr := Option.some.inj h
      rw [← hr]
      rcases start_session_cases clearedSession bl with hs | hs <;>
        rw [hs] <;> exact Or.inr rfl
    · rw [if_neg hok] at h
      have hr := Option.some.inj h
      rw [← hr]
      rcases start_session_cases s bl with hs | hs <;> rw [hs]
      · exact Or.inl rfl
      · exact Or.inr rfl
  · rw [if_neg hv] at h
    have hr := Option.some.inj h
    rw [← hr]
    exact Or.inl rfl

theorem step_invp (st : ConvState) (s : Session) (e : Event) (env : Env)
    (h : InvP st s) : InvP (step st s e env).1 (step st s e env).2 := by
  have hT : truthy s.phone = true → transientsNone s := fun hp => (h hp).1
  cases e with
  | restart =>
      simp only [step]
      intro hp
      exact ⟨hT hp, Or.inr rfl⟩
  | startCmd =>
      cases st <;> simp only [step]
      case LOGGED_IN =>
        rcases handle_doubt_session s env.bl env.lookup (.text "/start")
            env.callerId env.ts env.driveId env.uploadOk with hd | hd <;> rw [hd]
        · intro hp
          exact ⟨hT hp, Or.inl rfl⟩
        · exact invp_phone_false rfl
      all_goals exact invp_start s env.bl hT
  | cancelCmd =>
      cases st <;> simp only [step]
      case LOGGED_IN =>
        rcases handle_doubt_session s env.bl env.lookup (.text "/cancel")
            env.callerId env.ts env.driveId env.uploadOk with hd | hd <;> rw [hd]
        · intro hp
          exact ⟨hT hp, Or.inl rfl⟩
        · exact invp_phone_false rfl
      case CONV_END => exact h
      all_goals exact invp_phone_false rfl
  | logoutCmd =>
      cases st <;> simp only [step]
      case LOGGED_IN =>
        exact invp_start clearedSession env.bl (fun hp => absurd hp (by decide))
      all_goals exact h
  | cbQuery d =>
      cases st <;> simp only [step]
      case AUTH_DECISION =>
        have hpf := phone_false_of_invp h (by decide) (by decide)
        rcases had : auth_decision_callback d with _ | st2 <;> simp only [had]
        · exact invp_phone_false hpf
        · exact invp_phone_false hpf
      case SIGNUP_EXAMS =>
        have hpf := phone_false_of_invp h (by decide) (by decide)
        rcases hec : signup_exams_callback s d with _ | r <;> simp only [hec]
        · exact invp_phone_false hpf
        · have hph := signup_exams_phone s d r hec
          exact invp_phone_false (by rw [hph]; exact hpf)
      all_goals exact h
  | textMsg t =>
      cases st <;> simp only [step]
      case LOGIN_PHONE =>
        have hpf := phone_false_of_invp h (by decide) (by decide)
        exact invp_phone_false (truthy_carry (login_phone_phone s t env.bl env.lookup) hpf)
      case LOGIN_PIN =>
        have hpf := phone_false_of_invp h (by decide) (by decide)
        rcases hlp : login_pin s t env.callerId with _ | r <;> simp only [hlp]
        · exact invp_phone_false hpf
        · rcases login_pin_cases s t env.callerId r hlp with ⟨hst, htr⟩ | hss
          · intro hp
            exact ⟨htr, Or.inl hst⟩
          · exact invp_phone_false (by rw [hss]; exact hpf)
      case SIGNUP_NAME =>
        have hpf := phone_false_of_invp h (by decide) (by decide)
        exact invp_phone_false hpf
      case SIGNUP_PHONE =>
        have hpf := phone_false_of_invp h (by decide) (by decide)
        rcases hsp : signup_phone s t env.lookup with _ | trip
        · simp only [hsp]
          exact invp_phone_false hpf
        · obtain ⟨st2, s2, m⟩ := trip
          simp only [hsp]
          have hph := signup_phone_phone s t env.lookup st2 s2 m hsp
          exact invp_phone_false (by rw [hph]; exact hpf)
      case SIGNUP_CLASS =>
        have hpf := phone_false_of_invp h (by decide) (by decide)
        exact invp_phone_false hpf
      case SIGNUP_PIN =>
        have hpf := phone_false_of_invp h (by decide) (by decide)
        rcases hsp : signup_pin s t env.callerId env.ts env.bl env.appendOk
            with _ | r <;> simp only [hsp]
        · exact invp_phone_false hpf
        · exact invp_phone_false
            (truthy_carry (signup_pin_phone s t env.callerId env.ts env.bl env.appendOk r hsp) hpf)
      case LOGGED_IN =>
        rcases handle_doubt_session s env.bl env.lookup (.text t)
            env.callerId env.ts env.driveId env.uploadOk with hd | hd <;> rw [hd]
        · intro hp
          exact ⟨hT hp, Or.inl rfl⟩
        · exact invp_phone_false rfl
      all_goals exact h
  | photoMsg c =>
      cases st <;> simp only [step]
      case LOGGED_IN =>
        rcases handle_doubt_session s env.bl env.lookup (.photo c)
            env.callerId env.ts env.driveId env.uploadOk with hd | hd <;> rw [hd]
        · intro hp
          exact ⟨hT hp, Or.inl rfl⟩
        · exact invp_phone_false rfl
      all_goals exact h

theorem reachable_invp {st : ConvState} {s : Session} (h : Reachable st s) : InvP st s := by
  induction h with
  | base => exact invp_phone_false rfl
  | next e env _ ih => exact step_invp _ _ e env ih

theorem afterUnd_exam (t : String) : afterUnd ("exam_" ++ t) = some t := by
  cases t with
  | mk d => rfl

/- ===================== claims ===================== -/

/-- Claim C2, counterexample: the gate returns the same boolean `true`
for an anonymous session (no `phone`) and for a blacklisted session, so
the three outcomes Anonymous / Blacklisted / Authenticated are not
distinguished by the gate result (the claim asserts they are). -/
theorem claim_C2_counterexample :
    (is_user_blacklisted clearedSession {"9625060017"}).1 = true ∧
    (is_user_blacklisted { phone := some "9625060017" } {"9625060017"}).1 = true ∧
    clearedSession.phone = none ∧
    ({ phone := some "9625060017" } : Session).phone = some "9625060017" ∧
    "9625060017" ∈ ({"9625060017"} : Finset String) ∧
    (is_user_blacklisted clearedSession {"9625060017"}).1 =
      (is_user_blacklisted { phone := some "9625060017" } {"9625060017"}).1 := by
  decide

/-- Claim C2 (amended): the gate returns a single boolean — `true`
(deny) when `session.phone` is unset/empty or blacklisted, `false`
(allow) otherwise; anonymous and blacklisted are not separate return
values; the session is cleared, and mutated at all, only on the
blacklisted branch. -/
theorem claim_C2_thm (s : Session) (bl : Finset String) :
    (truthy s.phone = false → is_user_blacklisted s bl = (true, s)) ∧
    (∀ p, s.phone = some p → p ≠ "" → p ∈ bl →
      is_user_blacklisted s bl = (true, clearedSession)) ∧
    (∀ p, s.phone = some p → p ≠ "" → p ∉ bl →
      is_user_blacklisted s bl = (false, s)) ∧
    ((is_user_blacklisted s bl).2 ≠ s →
      (is_user_blacklisted s bl).1 = true ∧
      (is_user_blacklisted s bl).2 = clearedSession) := by
  refine ⟨?_, ?_, ?_, ?_⟩
  · intro hf
    unfold is_user_blacklisted
    rcases hp : s.phone with _ | p
    · rfl
    · have hpe : p = "" := by simpa [truthy, hp] using hf
      simp [hpe]
  · intro p hp hne hbl
    unfold is_user_blacklisted
    simp [hp, hne, hbl]
  · intro p hp hne hbl
    unfold is_user_blacklisted
    simp [hp, hne, hbl]
  · intro hne
    unfold is_user_blacklisted at hne ⊢
    rcases hp : s.phone with _ | p <;> simp only [hp] at hne ⊢
    · exact absurd rfl hne
    · by_cases h1 : p = ""
      · simp [h1] at hne ⊢
      · by_cases h2 : p ∈ bl
        · simp [h1, h2]
        · simp [h1, h2] at hne

/-- Claim C2, witness: the blacklisted branch at the helpline number of
the spec scenario. -/
theorem claim_C2_witness :
    is_user_blacklisted { phone := some "9625060017" } {"9625060017"} =
      (true, clearedSession) :=
  (claim_C2_thm { phone := some "9625060017" } {"9625060017"}).2.1
    "9625060017" rfl (by decide) (by decide)

/-- Claim C3, counterexample: a transient store error during the login
phone lookup ends the conversation (`ConversationHandler.END`) instead
of leaving the session in `LOGIN_PHONE`: the event is a flow
termination, not a no-op transition back to the same state. -/
theorem claim_C3_counterexample :
    login_phone clearedSession "9998887776" ∅ .storeError =
      { state := .CONV_END, session := clearedSession, reply := STORE_ERROR_MSG,
        menuShown := false } ∧
    ConvState.CONV_END ≠ ConvState.LOGIN_PHONE := by
  decide

/-- Claim C3 (amended): in the login phone lookup a transient store
error is distinguished from not-found and reported with a retry-later
message, but it terminates the conversation (END, session unchanged)
rather than re-prompting in the same state; the signup phone-uniqueness
check does not catch transient store errors at all (the exception
propagates: no reply, no state advance). -/
theorem claim_C3_thm (s : Session) (text : String) (bl : Finset String)
    (hbl : pyStrip text ∉ bl) :
    login_phone s text bl .storeError =
      { state := .CONV_END, session := s, reply := STORE_ERROR_MSG, menuShown := false } ∧
    (login_phone s text bl .notFound).reply = NOT_REGISTERED_MSG ∧
    STORE_ERROR_MSG ≠ NOT_REGISTERED_MSG ∧
    signup_phone s text .storeError = none := by
  refine ⟨?_, ?_, by decide, rfl⟩
  · simp [login_phone, hbl]
  · simp [login_phone, hbl]

/-- Claim C3, witness: the store-error and not-found branches at the
concrete phone of the ownership scenario, with an empty blacklist. -/
theorem claim_C3_witness :
    login_phone clearedSession "9998887776" ∅ .storeError =
      { state := .CONV_END, session := clearedSession, reply := STORE_ERROR_MSG,
        menuShown := false } ∧
    signup_phone clearedSession "9998887776" .storeError = none :=
  ⟨(claim_C3_thm clearedSession "9998887776" ∅ (by decide)).1,
   (claim_C3_thm clearedSession "9998887776" ∅ (by decide)).2.2.2⟩

/-- Claim C4 (code bug): on the photo path the temp file is created
with `delete=False` and `os.unlink` sits after the `with` block outside
any `finally`, so when the Drive upload raises, the handler exits by
exception before the unlink: the local copy is NOT deleted on the
upload-failure path (and no doubt row is appended).  On the success
path the upload does complete before the sheet append, and the file is
deleted. -/
theorem claim_C4_thm :
    (handle_doubt { phone := some "9000000001" } ∅ (.found ["9000000001", "U1", "Asha"])
        (.photo (some "why")) "U1" "T0" "D1" false).effs = [.download] ∧
    Eff.unlinkFile ∉
      (handle_doubt { phone := some "9000000001" } ∅ (.found ["9000000001", "U1", "Asha"])
        (.photo (some "why")) "U1" "T0" "D1" false).effs ∧
    (handle_doubt { phone := some "9000000001" } ∅ (.found ["9000000001", "U1", "Asha"])
        (.photo (some "why")) "U1" "T0" "D1" false).raised = true ∧
    (handle_doubt { phone := some "9000000001" } ∅ (.found ["9000000001", "U1", "Asha"])
        (.photo (some "why")) "U1" "T0" "D1" false).doubtRow = none ∧
    (handle_doubt { phone := some "9000000001" } ∅ (.found ["9000000001", "U1", "Asha"])
        (.photo (some "why")) "U1" "T0" "D1" true).effs =
      [.download, .upload, .unlinkFile, .ack, .appendRow] ∧
    List.indexOf Eff.upload
        (handle_doubt { phone := some "9000000001" } ∅ (.found ["9000000001", "U1", "Asha"])
          (.photo (some "why")) "U1" "T0" "D1" true).effs <
      List.indexOf Eff.appendRow
        (handle_doubt { phone := some "9000000001" } ∅ (.found ["9000000001", "U1", "Asha"])
          (.photo (some "why")) "U1" "T0" "D1" true).effs ∧
    Eff.unlinkFile ∈
      (handle_doubt { phone := some "9000000001" } ∅ (.found ["9000000001", "U1", "Asha"])
        (.photo (some "why")) "U1" "T0" "D1" true).effs := by
  decide

/-- Claim C5 (confirmed): with `login_data` snapshotted, a correct PIN
from a different Telegram identity ends the conversation with the
access-denied message and leaves the session untouched (in particular
`phone` is not set); a wrong PIN re-prompts in `LOGIN_PIN`, also with
the session untouched, and no attempt counter exists. -/
theorem claim_C5_thm (s : Session) (row : List String) (text callerId p5 p1 : String)
    (hld : s.login_data = some row) (h5 : row.get? 5 = some p5)
    (h1 : row.get? 1 = some p1) :
    (pyStrip text = p5 → p1 ≠ callerId →
      login_pin s text callerId =
        some { state := .CONV_END, session := s, reply := ACCESS_DENIED_MSG }) ∧
    (pyStrip text ≠ p5 →
      login_pin s text callerId =
        some { state := .LOGIN_PIN, session := s, reply := INCORRECT_PIN_MSG }) := by
  constructor
  · intro hpin hid
    unfold login_pin
    simp only [hld, h5, h1]
    rw [if_pos hpin, if_neg hid]
  · intro hpin
    unfold login_pin
    simp only [hld, h5]
    rw [if_neg hpin]

/-- Claim C5, witness: the spec scenario — account owned by identity
`A`, correct PIN submitted by identity `B`, and a wrong-PIN retry by
`A`. -/
theorem claim_C5_witness :
    login_pin { login_data := some rowA } "1234" "B" =
      some { state := .CONV_END, session := { login_data := some rowA },
             reply := ACCESS_DENIED_MSG } ∧
    login_pin { login_data := some rowA } "9999" "A" =
      some { state := .LOGIN_PIN, session := { login_data := some rowA },
             reply := INCORRECT_PIN_MSG } :=
  ⟨(claim_C5_thm { login_data := some rowA } rowA "1234" "B" "1234" "A"
      rfl (by decide) (by decide)).1 (by decide) (by decide),
   (claim_C5_thm { login_data := some rowA } rowA "9999" "A" "1234" "A"
      rfl (by decide) (by decide)).2 (by decide)⟩

/-- Claim C7 (confirmed): re-entering `/start` with `session.phone` set
and not blacklisted goes straight to `LOGGED_IN` without showing the
menu and without touching the session; if the phone is blacklisted the
session is fully cleared and the login/signup menu is shown instead. -/
theorem claim_C7_thm (s : Session) (bl : Finset String) (p : String)
    (hp : s.phone = some p) (hne : p ≠ "") :
    (p ∉ bl → start s bl = { state := .LOGGED_IN, session := s, menuShown := false }) ∧
    (p ∈ bl → start s bl =
      { state := .AUTH_DECISION, session := clearedSession, menuShown := true }) := by
  have ht : truthy s.phone = true := by simp [truthy, hp, hne]
  constructor
  · intro hbl
    have hg : is_user_blacklisted s bl = (false, s) := by
      unfold is_user_blacklisted
      simp [hp, hne, hbl]
    simp [start, ht, hg]
  · intro hbl
    have hg : is_user_blacklisted s bl = (true, clearedSession) := by
      unfold is_user_blacklisted
      simp [hp, hne, hbl]
    simp [start, ht, hg]

/-- Claim C7, witness: both re-entry branches at the blacklist phone of
the spec scenario. -/
theorem claim_C7_witness :
    start { phone := some "9625060017" } ∅ =
      { state := .LOGGED_IN, session := { phone := some "9625060017" },
        menuShown := false } ∧
    start { phone := some "9625060017" } {"9625060017"} =
      { state := .AUTH_DECISION, session := clearedSession, menuShown := true } :=
  ⟨(claim_C7_thm { phone := some "9625060017" } ∅ "9625060017" rfl (by decide)).1
      (by decide),
   (claim_C7_thm { phone := some "9625060017" } {"9625060017"} "9625060017" rfl
      (by decide)).2 (by decide)⟩

/-- Claim C9 (confirmed): in every conversation state and session
reachable through the handlers (including restarts), whenever
`session.phone` is set no transient signup/login field is present. -/
theorem claim_C9_thm (st : ConvState) (s : Session) (h : Reachable st s)
    (hp : truthy s.phone = true) : transientsNone s :=
  (reachable_invp h hp).1

/-- Claim C9, witness: the session reached by the login happy path
(start, menu login, phone found, correct PIN from the owner identity)
has `phone` set and no transients. -/
theorem claim_C9_witness : transientsNone { phone := some "9998887776" } := by
  have h0 : Reachable .CONV_END clearedSession := Reachable.base
  have h1 : Reachable .AUTH_DECISION clearedSession := by
    have e1 : step .CONV_END clearedSession .startCmd env0 =
        (.AUTH_DECISION, clearedSession) := by decide
    have hn := Reachable.next .startCmd env0 h0
    rw [e1] at hn
    exact hn
  have h2 : Reachable .LOGIN_PHONE clearedSession := by
    have e2 : step .AUTH_DECISION clearedSession (.cbQuery "login") env0 =
        (.LOGIN_PHONE, clearedSession) := by decide
    have hn := Reachable.next (.cbQuery "login") env0 h1
    rw [e2] at hn
    exact hn
  have h3 : Reachable .LOGIN_PIN { login_data := some rowA } := by
    have e3 : step .LOGIN_PHONE clearedSession (.textMsg "9998887776") envA =
        (.LOGIN_PIN, { login_data := some rowA }) := by decide
    have hn := Reachable.next (.textMsg "9998887776") envA h2
    rw [e3] at hn
    exact hn
  have h4 : Reachable .LOGGED_IN { phone := some "9998887776" } := by
    have e4 : step .LOGIN_PIN { login_data := some rowA } (.textMsg "1234") envA =
        (.LOGGED_IN, { phone := some "9998887776" }) := by decide
    have hn := Reachable.next (.textMsg "1234") envA h3
    rw [e4] at hn
    exact hn
  exact claim_C9_thm .LOGGED_IN { phone := some "9998887776" } h4 (by decide)

/-- Claim C1, counterexample: the happy-path signup (Asha, 9000000001,
class 10, JEE, PIN 4321 from identity U1) appends the expected Account
row and notifies the admin, but `signup_pin` then clears the whole
session WITHOUT setting `session.phone` and tail-calls `start`, which
shows the login/signup menu: the session ends in `AUTH_DECISION` with
`phone` unset, not in `LOGGED_IN` with `phone = "9000000001"`. -/
theorem claim_C1_counterexample :
    signup_pin sigSession "4321" "U1" "T0" ∅ true =
      some { state := .AUTH_DECISION, session := clearedSession,
             row := some ["9000000001", "U1", "Asha", "10", "JEE", "4321", "T0"],
             appended := true, notified := true, menuShown := true,
             reply := SIGNUP_OK_MSG } ∧
    ConvState.AUTH_DECISION ≠ ConvState.LOGGED_IN ∧
    clearedSession.phone = none := by
  decide

/-- Claim C1 (amended): completing signup with a valid 4-digit PIN
appends the Account row `[phone, identity, name, class, exams, pin, ts]`
and fires the admin notification, then clears ALL session fields —
leaving `session.phone` unset — replies that the user should now log
in, and re-enters `start`, which shows the menu and leaves the session
in `AUTH_DECISION` (not `LOGGED_IN`). -/
theorem claim_C1_thm (s : Session) (nm ph cl : String) (sel : Finset String)
    (text cid ts : String) (bl : Finset String)
    (hnm : s.signup_name = some nm) (hph : s.signup_phone = some ph)
    (hcl : s.signup_class = some cl) (hsel : s.selected_exams = some sel)
    (hv : (pyIsdigit (pyStrip text) && (pyStrip text).length == 4) = true) :
    signup_pin s text cid ts bl true =
      some { state := .AUTH_DECISION, session := clearedSession,
             row := some [ph, cid, nm, cl, examsStr sel, pyStrip text, ts],
             appended := true, notified := true, menuShown := true,
             reply := SIGNUP_OK_MSG } := by
  have hs : start clearedSession bl =
      { state := .AUTH_DECISION, session := clearedSession, menuShown := true } := by
    rcases start_cases clearedSession bl with ⟨_, he⟩ | ⟨ht, _⟩ | he
    · exact he
    · exact absurd ht (by decide)
    · exact he
  simp only [signup_pin]
  rw [if_pos hv]
  simp only [hsel, hnm, hph, hcl, hs]
  simp

/-- Claim C1, witness: the amended statement at the spec scenario
inputs. -/
theorem claim_C1_witness :
    signup_pin sigSession "4321" "U1" "T0" ∅ true =
      some { state := .AUTH_DECISION, session := clearedSession,
             row := some ["9000000001", "U1", "Asha", "10", examsStr {"JEE"},
                          pyStrip "4321", "T0"],
             appended := true, notified := true, menuShown := true,
             reply := SIGNUP_OK_MSG } :=
  claim_C1_thm sigSession "Asha" "9000000001" "10" {"JEE"} "4321" "U1" "T0" ∅
    rfl rfl rfl rfl (by decide)

/-- Claim C6, counterexample: the submitted text `" 1234"` does not
consist of exactly 4 ASCII decimal digits (it has length 5 and contains
a space), yet it is accepted: the handler validates the
whitespace-stripped text, so the signup completes and the state
advances away from `SIGNUP_PIN`. -/
theorem claim_C6_counterexample :
    (¬ (pyIsdigit " 1234" = true ∧ (" 1234").length = 4)) ∧
    signup_pin sigSession " 1234" "U1" "T0" ∅ true =
      some { state := .AUTH_DECISION, session := clearedSession,
             row := some ["9000000001", "U1", "Asha", "10", "JEE", "1234", "T0"],
             appended := true, notified := true, menuShown := true,
             reply := SIGNUP_OK_MSG } ∧
    ConvState.AUTH_DECISION ≠ ConvState.SIGNUP_PIN := by
  decide

/-- Claim C6 (amended): input in `SIGNUP_PIN` is accepted exactly when
the WHITESPACE-STRIPPED text consists of exactly 4 decimal digits
(`update.message.text.strip()` is validated, not the raw text; Python
`isdigit` also admits some non-ASCII digits, not modelled here); any
other input re-prompts with the invalid-PIN message, leaving the state
`SIGNUP_PIN` and the session unchanged. -/
theorem claim_C6_thm (s : Session) (text cid ts : String) (bl : Finset String) (ok : Bool) :
    ((pyIsdigit (pyStrip text) && (pyStrip text).length == 4) = false →
      signup_pin s text cid ts bl ok =
        some { state := .SIGNUP_PIN, session := s, row := none, appended := false,
               notified := false, menuShown := false, reply := INVALID_PIN_MSG }) ∧
    ((pyIsdigit (pyStrip text) && (pyStrip text).length == 4) = true →
      ∀ nm ph cl sel, s.signup_name = some nm → s.signup_phone = some ph →
        s.signup_class = some cl → s.selected_exams = some sel →
        ∀ r, signup_pin s text cid ts bl ok = some r →
          r.row = some [ph, cid, nm, cl, examsStr sel, pyStrip text, ts] ∧
          r.state ≠ .SIGNUP_PIN) := by
  constructor
  · intro hv
    simp only [signup_pin]
    rw [if_neg (by simp [hv])]
  · intro hv nm ph cl sel hnm hph hcl hsel r hr
    simp only [signup_pin] at hr
    rw [if_pos hv] at hr
    simp only [hsel, hnm, hph, hcl] at hr
    by_cases hok : ok = true
    · rw [if_pos hok] at hr
      have hre := Option.some.inj hr
      constructor
      · rw [← hre]
      · rw [← hre]
        rcases start_state_cases clearedSession bl with hs | hs <;>
          simp [hs]
    · rw [if_neg hok] at hr
      have hre := Option.some.inj hr
      constructor
      · rw [← hre]
      · rw [← hre]
        rcases start_state_cases s bl with hs | hs <;> simp [hs]

/-- Claim C6, witness: a non-digit input is rejected in place, and the
accepted branch at the spec scenario inputs. -/
theorem claim_C6_witness :
    signup_pin clearedSession "abcd" "U1" "T0" ∅ true =
      some { state := .SIGNUP_PIN, session := clearedSession, row := none,
             appended := false, notified := false, menuShown := false,
             reply := INVALID_PIN_MSG } ∧
    ({ state := .AUTH_DECISION, session := clearedSession,
       row := some ["9000000001", "U1", "Asha", "10", "JEE", "4321", "T0"],
       appended := true, notified := true, menuShown := true,
       reply := SIGNUP_OK_MSG } : SignupPinResult).row =
      some ["9000000001", "U1", "Asha", "10", examsStr {"JEE"}, pyStrip "4321", "T0"] :=
  ⟨(claim_C6_thm clearedSession "abcd" "U1" "T0" ∅ true).1 (by decide),
   ((claim_C6_thm sigSession "4321" "U1" "T0" ∅ true).2 (by decide)
      "Asha" "9000000001" "10" {"JEE"} rfl rfl rfl rfl _ (by decide)).1⟩

/-- Claim C8 (confirmed): in `SIGNUP_EXAMS`, toggling a tag re-renders
the keyboard and stays in `SIGNUP_EXAMS`; toggling the same tag twice
restores `selectedExams` (indeed the whole session); and after each
toggle the rendered option list marks with the checkmark exactly the
options currently selected. -/
theorem claim_C8_thm (s : Session) (sel : Finset String) (tag : String)
    (hsel : s.selected_exams = some sel) (htag : tag ≠ "done") :
    signup_exams_callback s ("exam_" ++ tag) =
      some { state := .SIGNUP_EXAMS,
             session := { s with selected_exams := some (toggle sel tag) },
             keyboard := renderKeyboard (toggle sel tag) } ∧
    signup_exams_callback { s with selected_exams := some (toggle sel tag) }
        ("exam_" ++ tag) =
      some { state := .SIGNUP_EXAMS, session := s, keyboard := renderKeyboard sel } ∧
    (∀ e ∈ EXAM_OPTIONS,
      ((CHECK_MARK ++ e) ∈ renderKeyboard (toggle sel tag) ↔ e ∈ toggle sel tag)) ∧
    (∀ e ∈ EXAM_OPTIONS, ((CHECK_MARK ++ e) ∈ renderKeyboard sel ↔ e ∈ sel)) := by
  obtain ⟨p0, n0, ph0, c0, se0, ld0⟩ := s
  have hse : se0 = some sel := hsel
  subst hse
  refine ⟨?_, ?_, fun e he => mark_mem_render _ e he, fun e he => mark_mem_render _ e he⟩
  · simp [signup_exams_callback, afterUnd_exam, htag]
  · simp [signup_exams_callback, afterUnd_exam, htag, toggle_toggle]

/-- Claim C8, witness: toggling `JEE` from the selection `{JEE}` in the
spec scenario session, and the checkmark condition for `JEE` after the
toggle. -/
theorem claim_C8_witness :
    signup_exams_callback sigSession ("exam_" ++ "JEE") =
      some { state := .SIGNUP_EXAMS,
             session := { sigSession with selected_exams := some (toggle {"JEE"} "JEE") },
             keyboard := renderKeyboard (toggle {"JEE"} "JEE") } ∧
    ((CHECK_MARK ++ "JEE") ∈ renderKeyboard (toggle {"JEE"} "JEE") ↔
      "JEE" ∈ toggle {"JEE"} "JEE") :=
  ⟨(claim_C8_thm sigSession {"JEE"} "JEE" rfl (by decide)).1,
   (claim_C8_thm sigSession {"JEE"} "JEE" rfl (by decide)).2.2.1 "JEE" (by decide)⟩

/-- Claim C10 (confirmed): the exams field written into the Account row
is `", ".join(sorted(selected_exams))`, a canonical serialization of
the selected set, so two toggle sequences that produce the same set —
in particular any two permutations of one another — yield identical
serialized exam tags. -/
theorem claim_C10_thm (l1 l2 : List String) (hp : l1.Perm l2) :
    examsStr (l1.foldl toggle ∅) = examsStr (l2.foldl toggle ∅) ∧
    (∀ s nm ph cl text cid ts bl ok,
      s.signup_name = some nm → s.signup_phone = some ph →
      s.signup_class = some cl → s.selected_exams = some (l1.foldl toggle ∅) →
      (pyIsdigit (pyStrip text) && (pyStrip text).length == 4) = true →
      ∀ r, signup_pin s text cid ts bl ok = some r →
        r.row = some [ph, cid, nm, cl, examsStr (l2.foldl toggle ∅), pyStrip text, ts]) := by
  have he : examsStr (l1.foldl toggle ∅) = examsStr (l2.foldl toggle ∅) :=
    congrArg examsStr (foldl_toggle_perm hp ∅)
  refine ⟨he, ?_⟩
  intro s nm ph cl text cid ts bl ok hnm hph hcl hsel hv r hr
  simp only [signup_pin] at hr
  rw [if_pos hv] at hr
  simp only [hsel, hnm, hph, hcl] at hr
  by_cases hok : ok = true
  · rw [if_pos hok] at hr
    have hre := Option.some.inj hr
    rw [← hre, he]
  · rw [if_neg hok] at hr
    have hre := Option.some.inj hr
    rw [← hre, he]

/-- Claim C10, witness: selecting JEE then NEET and selecting NEET then
JEE serialize identically. -/
theorem claim_C10_witness :
    examsStr (["NEET", "JEE"].foldl toggle ∅) =
      examsStr (["JEE", "NEET"].foldl toggle ∅) :=
  (claim_C10_thm ["NEET", "JEE"] ["JEE", "NEET"] (List.Perm.swap "JEE" "NEET" [])).1

end AspireBot
